import Mathlib

/-!
Shallow embedding of the Observe subscription lifecycle and
notification-response policy of `gcoaptest/observer.py`
(class `GcoapObserver`), a Python 2 CoAP observer client.

Modelling conventions:
* The soscoap message library is external; a `CoapMessage` is modelled as a
  record of exactly the fields the observer reads or writes.  Numeric code
  constants from soscoap (`CodeClass.Request`, `RequestCode.GET`, ...) are
  modelled as named `Nat` constants with their CoAP wire values.
* The Python dict `_registeredPaths` is modelled as an association list with
  dict semantics (insert replaces the entry for an existing key, `del`
  removes it); a dict never holds two entries for one key, which appears
  here as the `keysNodup` invariant.
* Randomness (`random.randint` for the message ID and the two token bytes)
  is passed in as explicit arguments.
* Python exceptions become `Except PyError`: `KeyError` (a `LookupError`)
  from `self._registeredPaths[observePath]`, `ValueError` from
  `int(..., base=16)` or from storing an out-of-range byte.
* The source is Python 2: `len(tokenText) / 2` is integer floor division,
  and `int(s, base=16)` accepts surrounding whitespace, a sign, and both
  hex-letter cases.
-/

namespace GcoapObserver

/-- CoAP message types, from soscoap `MessageType`. -/
inductive MessageType where
  | CON
  | NON
  | ACK
  | RST
deriving DecidableEq, Repr

/-- CoAP option numbers used by the observer, from soscoap `OptionType`. -/
inductive OptionType where
  | Observe
  | UriPath
deriving DecidableEq, Repr

/-- Value carried by a CoAP option: the Observe option carries an integer,
UriPath carries a path segment string. -/
inductive OptionValue where
  | intVal (n : Nat)
  | strVal (s : String)
deriving DecidableEq, Repr

/-- One CoAP option, as built by `CoapOption(OptionType.X, value)`. -/
structure CoapOption where
  optionType : OptionType
  value : OptionValue
deriving DecidableEq, Repr

/-- Numeric code class for a request, from soscoap `CodeClass.Request`. -/
def CodeClass.Request : Nat := 0

/-- Numeric code class for an empty message, from soscoap `CodeClass.Empty`. -/
def CodeClass.Empty : Nat := 0

/-- Numeric code detail of a GET request, from soscoap `RequestCode.GET`. -/
def RequestCode.GET : Nat := 1

/-- Numeric code detail of an empty message, from soscoap
`ClientResponseCode.Empty`. -/
def ClientResponseCode.Empty : Nat := 0

/-- The fields of a soscoap `CoapMessage` that the observer reads or writes.
`token = none` models Python `msg.token = None`; a stored token is a list of
byte values. -/
structure CoapMessage where
  messageType : MessageType
  codeClass : Nat
  codeDetail : Nat
  messageId : Nat
  options : List CoapOption := []
  tokenLength : Nat := 0
  token : Option (List Nat) := none
deriving DecidableEq, Repr

/-- Options of the given type in a message, in order, as soscoap
`CoapMessage.findOption`. -/
def findOption (m : CoapMessage) (t : OptionType) : List CoapOption :=
  m.options.filter (fun o => decide (o.optionType = t))

/-- The `_notificationAction` attribute.  In the source it is `None` or one
of the strings assigned by `_postServerResource`: `'ignore'`, `'reset'`,
`'reset_non'`.  `unset` models `None` (the spec calls this default policy
`ack`). -/
inductive NotificationAction where
  | unset
  | ignore
  | reset
  | reset_non
deriving DecidableEq, Repr

/-- Python exception classes raised by the observer core.  `keyError` is the
`LookupError` subclass raised by a failed dict lookup; `valueError` is the
format error raised by `int(s, base=16)` on unparseable text or by storing
an out-of-range value into a bytearray. -/
inductive PyError where
  | keyError
  | valueError
deriving DecidableEq, Repr

/-- Dict lookup `d[k]`: value of the entry for `k`, if any. -/
def dictLookup {α : Type} : List (String × α) → String → Option α
  | [], _ => none
  | p :: rest, k => if p.1 = k then some p.2 else dictLookup rest k

/-- Dict update `d[k] = v`: replace the entry for `k` in place, or append a
new entry. -/
def dictInsert {α : Type} : List (String × α) → String → α → List (String × α)
  | [], k, v => [(k, v)]
  | p :: rest, k, v => if p.1 = k then (k, v) :: rest else p :: dictInsert rest k v

/-- Dict deletion `del d[k]`: drop the entry for `k`. -/
def dictRemove {α : Type} : List (String × α) → String → List (String × α)
  | [], _ => []
  | p :: rest, k => if p.1 = k then rest else p :: dictRemove rest k

/-- Mutable state of a `GcoapObserver` instance: `_registeredPaths` maps a
resource key to the token registered for it, `_notificationAction` is the
process-wide notification policy. -/
structure ObserverState where
  registeredPaths : List (String × List Nat)
  notificationAction : NotificationAction
deriving DecidableEq, Repr

/-- State set up by `__init__`: empty subscription table, policy `None`. -/
def initState : ObserverState :=
  { registeredPaths := [], notificationAction := .unset }

/-- A dict can never hold two entries for one key; this is the invariant the
association-list model maintains. -/
def keysNodup {α : Type} (d : List (String × α)) : Prop :=
  (d.map Prod.fst).Nodup

/-- Value of a hexadecimal digit character, if it is one. -/
def hexVal (c : Char) : Option Nat :=
  if '0' ≤ c ∧ c ≤ '9' then some (c.toNat - '0'.toNat)
  else if 'a' ≤ c ∧ c ≤ 'f' then some (c.toNat - 'a'.toNat + 10)
  else if 'A' ≤ c ∧ c ≤ 'F' then some (c.toNat - 'A'.toNat + 10)
  else none

/-- Characters stripped by Python `int()` before parsing. -/
def isPySpace (c : Char) : Bool :=
  c = ' ' ∨ c = '\t' ∨ c = '\n' ∨ c = '\r' ∨ c = '\x0b' ∨ c = '\x0c'

/-- Python 2 `int(s, base=16)` restricted to the two-character slices
`tokenText[2*i:2*(i+1)]` the observer feeds it: two hex digits, or one hex
digit with a stripped whitespace character on either side, or a sign
followed by one hex digit; anything else raises `ValueError` (`none`). -/
def pyInt16Pair (c1 c2 : Char) : Option Int :=
  match hexVal c1, hexVal c2 with
  | some a, some b => some ((16 * a + b : Nat) : Int)
  | some a, none => if isPySpace c2 then some ((a : Nat) : Int) else none
  | none, some b =>
    if isPySpace c1 then some ((b : Nat) : Int)
    else if c1 = '+' then some ((b : Nat) : Int)
    else if c1 = '-' then some (-((b : Nat) : Int))
    else none
  | none, none => none

/-- One iteration of the token-decode loop
`msg.token[i] = int(tokenText[2*i:2*(i+1)], base=16)`: parse the pair, then
store it into the bytearray, which raises `ValueError` unless the value is
in `[0, 256)`. -/
def decodePair (c1 c2 : Char) : Option Nat :=
  match pyInt16Pair c1 c2 with
  | some v => if 0 ≤ v ∧ v < 256 then some v.toNat else none
  | none => none

/-- The whole decode loop `for i in range(0, msg.tokenLength)` over
`tokenLength = len(tokenText) / 2` pairs: consecutive character pairs are
decoded; with Python 2 floor division a trailing unpaired character is never
read. -/
def decodePairs : List Char → Option (List Nat)
  | c1 :: c2 :: rest =>
    match decodePair c1 c2, decodePairs rest with
    | some b, some bs => some (b :: bs)
    | _, _ => none
  | _ => some []

/-- Python truthiness of an optional string (`if tokenText:`): `None` and
the empty string are falsy. -/
def strTruthy : Option String → Bool
  | some s => !s.isEmpty
  | none => false

/-- URI path options added for a resource key, from the
`if observePath == 'core': ... elif ...` chain of `_query`; an unmapped key
adds no path segments. -/
def pathOptions (observePath : String) : List CoapOption :=
  if observePath = "core" then
    [⟨.UriPath, .strVal ".well-known"⟩, ⟨.UriPath, .strVal "core"⟩]
  else if observePath = "stats" then
    [⟨.UriPath, .strVal "cli"⟩, ⟨.UriPath, .strVal "stats"⟩]
  else if observePath = "stats2" then
    [⟨.UriPath, .strVal "cli"⟩, ⟨.UriPath, .strVal "stats2"⟩]
  else []

/-- `GcoapObserver._query(observeAction, observePath, tokenText)`.

Builds a NON GET message for the mapped path; for `'reg'` adds Observe 0 and
a token (decoded from `tokenText` when that is truthy, otherwise the two
random bytes `r0, r1`) and stores the token in `_registeredPaths`; for
`'dereg'` adds Observe 1, uses the stored token (a missing entry raises
`KeyError`) and deletes the table entry before the send.  `randMsgId` stands
for `random.randint(0, 65535)`.  Returns the updated state and the single
message handed to `self._client.send`. -/
def query (st : ObserverState) (observeAction observePath : String)
    (tokenText : Option String) (randMsgId r0 r1 : Nat) :
    Except PyError (ObserverState × CoapMessage) :=
  let base : CoapMessage :=
    { messageType := .NON
      codeClass := CodeClass.Request
      codeDetail := RequestCode.GET
      messageId := randMsgId
      options := pathOptions observePath }
  if observeAction = "reg" then
    let withObs := { base with options := base.options ++ [(⟨.Observe, .intVal 0⟩ : CoapOption)] }
    if strTruthy tokenText then
      let s := tokenText.getD ""
      match decodePairs s.data with
      | some bs =>
        let msg := { withObs with tokenLength := s.length / 2, token := some bs }
        .ok ({ st with registeredPaths := dictInsert st.registeredPaths observePath bs }, msg)
      | none => .error .valueError
    else
      let msg := { withObs with tokenLength := 2, token := some [r0, r1] }
      .ok ({ st with registeredPaths := dictInsert st.registeredPaths observePath [r0, r1] }, msg)
  else if observeAction = "dereg" then
    match dictLookup st.registeredPaths observePath with
    | some tok =>
      let msg := { base with options := base.options ++ [(⟨.Observe, .intVal 1⟩ : CoapOption)],
                             tokenLength := 2, token := some tok }
      .ok ({ st with registeredPaths := dictRemove st.registeredPaths observePath }, msg)
    | none => .error .keyError
  else
    .ok (st, base)

/-- Registration as triggered by a `/reg/...` command: `_query('reg', k)`,
with `tokenText` the optional explicit token text. -/
def register (st : ObserverState) (k : String) (tokenText : Option String)
    (randMsgId r0 r1 : Nat) : Except PyError (ObserverState × CoapMessage) :=
  query st "reg" k tokenText randMsgId r0 r1

/-- Deregistration as triggered by a `/dereg/...` command:
`_query('dereg', k)`.  The random draws are unused on this path. -/
def deregister (st : ObserverState) (k : String)
    (randMsgId r0 r1 : Nat) : Except PyError (ObserverState × CoapMessage) :=
  query st "dereg" k none randMsgId r0 r1

/-- `GcoapObserver._sendNotifResponse(notif, responseType)`: an empty ACK or
RST echoing the notification's message ID, with no token. -/
def sendNotifResponse (notif : CoapMessage) (responseType : String) : CoapMessage :=
  { messageType := if responseType = "reset" then .RST else .ACK
    codeClass := CodeClass.Empty
    codeDetail := ClientResponseCode.Empty
    messageId := notif.messageId
    options := []
    tokenLength := 0
    token := none }

/-- The guard `message.token in self._registeredPaths.values()` of
`_responseClient`. -/
def tokenMatches (st : ObserverState) (message : CoapMessage) : Bool :=
  st.registeredPaths.any (fun p => decide (message.token = some p.2))

/-- `GcoapObserver._responseClient(message)`: the messages sent in response
to one inbound message.  A notification (token matching a live
subscription) gets at most one empty response according to the policy; any
other message gets none.  The subscription table and policy are not
changed. -/
def responseClient (st : ObserverState) (message : CoapMessage) : List CoapMessage :=
  if tokenMatches st message then
    if message.messageType = .CON then
      if st.notificationAction = .reset then [sendNotifResponse message "reset"]
      else if st.notificationAction = .unset then [sendNotifResponse message "ack"]
      else []
    else if message.messageType = .NON then
      if st.notificationAction = .reset_non then [sendNotifResponse message "reset"]
      else []
    else []
  else []

/-- Branch of `_postServerResource` taken for a recognized `/reg/...` or
`/dereg/...` path: the query text is passed as token text only for a
registration with a truthy query. -/
def doObserve (st : ObserverState) (observeAction observePath : String)
    (pathQuery : Option String) (randMsgId r0 r1 : Nat) :
    Except PyError (ObserverState × List CoapMessage) :=
  let tt := if observeAction = "reg" ∧ strTruthy pathQuery then pathQuery else none
  (query st observeAction observePath tt randMsgId r0 r1).map (fun p => (p.1, [p.2]))

/-- `GcoapObserver._postServerResource(resource)`: the command dispatch
chain.  `path` is `resource.path`, `pathQuery` is `resource.pathQuery`.
Returns the updated state and the outbound messages; an exception from
`_query` propagates. -/
def postServerResource (st : ObserverState) (path : String)
    (pathQuery : Option String) (randMsgId r0 r1 : Nat) :
    Except PyError (ObserverState × List CoapMessage) :=
  if path = "/reg/stats" then doObserve st "reg" "stats" pathQuery randMsgId r0 r1
  else if path = "/reg/core" then doObserve st "reg" "core" pathQuery randMsgId r0 r1
  else if path = "/reg/stats2" then doObserve st "reg" "stats2" pathQuery randMsgId r0 r1
  else if path = "/dereg/stats" then doObserve st "dereg" "stats" pathQuery randMsgId r0 r1
  else if path = "/dereg/core" then doObserve st "dereg" "core" pathQuery randMsgId r0 r1
  else if path = "/dereg/stats2" then doObserve st "dereg" "stats2" pathQuery randMsgId r0 r1
  else if path = "/notif/con_ignore" then .ok ({ st with notificationAction := .ignore }, [])
  else if path = "/notif/con_reset" then .ok ({ st with notificationAction := .reset }, [])
  else if path = "/notif/non_reset" then .ok ({ st with notificationAction := .reset_non }, [])
  else .ok (st, [])

/-- One event handled by the observer's event loop: either a command POST
(with its random draws) or an inbound client message. -/
inductive Command where
  | post (path : String) (pathQuery : Option String) (randMsgId r0 r1 : Nat)
  | inbound (message : CoapMessage)

/-- State after handling one event.  A command whose handler raises leaves
the state as the partial mutations of the source would: both raise points in
`_query` occur before any table mutation, so the state is unchanged.
`_responseClient` never mutates the state. -/
def runCommand (st : ObserverState) : Command → ObserverState
  | .post path q mid r0 r1 =>
    match postServerResource st path q mid r0 r1 with
    | .ok (st', _) => st'
    | .error _ => st
  | .inbound _ => st

/-- State reached from `__init__` after a sequence of events. -/
def runCommands (cs : List Command) : ObserverState :=
  cs.foldl runCommand initState

/-! Lemmas about the dict model. -/

theorem dictLookup_dictInsert {α : Type} (d : List (String × α)) (k : String) (v : α) :
    dictLookup (dictInsert d k v) k = some v := by
  induction d with
  | nil => simp [dictInsert, dictLookup]
  | cons p rest ih =>
    by_cases h : p.1 = k
    · simp [dictInsert, h, dictLookup]
    · simp [dictInsert, h, dictLookup, ih]

theorem mem_keys_dictInsert {α : Type} {d : List (String × α)} {k x : String} {v : α}
    (h : x ∈ (dictInsert d k v).map Prod.fst) : x ∈ d.map Prod.fst ∨ x = k := by
  induction d with
  | nil =>
    simp only [dictInsert, List.map_cons, List.map_nil, List.mem_singleton] at h
    exact Or.inr h
  | cons p rest ih =>
    by_cases hp : p.1 = k
    · simp only [dictInsert, hp, if_pos, List.map_cons, List.mem_cons] at h
      rcases h with h | h
      · exact Or.inr h
      · exact Or.inl (List.mem_cons_of_mem _ h)
    · simp only [dictInsert, hp, if_neg, not_false_iff, List.map_cons, List.mem_cons] at h
      rcases h with h | h
      · exact Or.inl (by simp [h])
      · rcases ih h with h' | h'
        · exact Or.inl (List.mem_cons_of_mem _ h')
        · exact Or.inr h'

theorem keysNodup_dictInsert {α : Type} {d : List (String × α)} (k : String) (v : α)
    (h : keysNodup d) : keysNodup (dictInsert d k v) := by
  induction d with
  | nil => simp [dictInsert, keysNodup]
  | cons p rest ih =>
    unfold keysNodup at h
    simp only [List.map_cons, List.nodup_cons] at h
    by_cases hp : p.1 = k
    · unfold keysNodup
      simp only [dictInsert, hp, if_pos, List.map_cons, List.nodup_cons]
      exact ⟨hp ▸ h.1, h.2⟩
    · have hrest := ih h.2
      unfold keysNodup
      simp only [dictInsert, hp, if_neg, not_false_iff, List.map_cons, List.nodup_cons]
      refine ⟨fun hmem => ?_, hrest⟩
      rcases mem_keys_dictInsert hmem with h' | h'
      · exact h.1 h'
      · exact hp h'

theorem dictRemove_sublist {α : Type} (d : List (String × α)) (k : String) :
    List.Sublist (dictRemove d k) d := by
  induction d with
  | nil => exact List.Sublist.refl []
  | cons p rest ih =>
    by_cases hp : p.1 = k
    · simp only [dictRemove, hp, if_pos]
      exact List.sublist_cons_self p rest
    · simp only [dictRemove, hp, if_neg, not_false_iff]
      exact ih.cons₂ p

theorem keysNodup_dictRemove {α : Type} {d : List (String × α)} (k : String)
    (h : keysNodup d) : keysNodup (dictRemove d k) :=
  List.Nodup.sublist (List.Sublist.map Prod.fst (dictRemove_sublist d k)) h

theorem dictLookup_eq_none {α : Type} {d : List (String × α)} {k : String}
    (h : k ∉ d.map Prod.fst) : dictLookup d k = none := by
  induction d with
  | nil => rfl
  | cons p rest ih =>
    simp only [List.map_cons, List.mem_cons] at h
    push_neg at h
    have hp : p.1 ≠ k := fun he => h.1 he.symm
    simp [dictLookup, hp, ih h.2]

theorem dictLookup_dictRemove {α : Type} {d : List (String × α)} (k : String)
    (h : keysNodup d) : dictLookup (dictRemove d k) k = none := by
  induction d with
  | nil => rfl
  | cons p rest ih =>
    unfold keysNodup at h
    simp only [List.map_cons, List.nodup_cons] at h
    by_cases hp : p.1 = k
    · simp only [dictRemove, hp, if_pos]
      exact dictLookup_eq_none (hp ▸ h.1)
    · simp [dictRemove, hp, dictLookup, ih h.2]

theorem filter_key_eq_nil {α : Type} {d : List (String × α)} {k : String}
    (h : k ∉ d.map Prod.fst) : d.filter (fun p => decide (p.1 = k)) = [] := by
  induction d with
  | nil => rfl
  | cons p rest ih =>
    simp only [List.map_cons, List.mem_cons] at h
    push_neg at h
    have hp : p.1 ≠ k := fun he => h.1 he.symm
    simp [List.filter_cons, hp, ih h.2]

theorem filter_key_dictInsert {α : Type} {d : List (String × α)} (k : String) (v : α)
    (h : keysNodup d) :
    (dictInsert d k v).filter (fun p => decide (p.1 = k)) = [(k, v)] := by
  induction d with
  | nil => simp [dictInsert]
  | cons p rest ih =>
    unfold keysNodup at h
    simp only [List.map_cons, List.nodup_cons] at h
    by_cases hp : p.1 = k
    · simp only [dictInsert, hp, if_pos]
      simp [List.filter_cons, filter_key_eq_nil (hp ▸ h.1)]
    · simp only [dictInsert, hp, if_neg, not_false_iff]
      simp [List.filter_cons, hp, ih h.2]

/-! Lemmas tracking how the operations act on the subscription table. -/

/-- A successful `_query` call leaves the table unchanged, stores a token
for `observePath`, or deletes the entry for `observePath`. -/
theorem query_ok_registeredPaths {st : ObserverState} {act key : String}
    {tt : Option String} {mid r0 r1 : Nat} {st' : ObserverState} {m : CoapMessage}
    (hq : query st act key tt mid r0 r1 = Except.ok (st', m)) :
    st'.registeredPaths = st.registeredPaths ∨
    (∃ bs, st'.registeredPaths = dictInsert st.registeredPaths key bs) ∨
    st'.registeredPaths = dictRemove st.registeredPaths key := by
  unfold query at hq
  dsimp only at hq
  split at hq
  · split at hq
    · split at hq
      · simp only [Except.ok.injEq, Prod.mk.injEq] at hq
        obtain ⟨h1, -⟩ := hq
        subst h1
        right; left; exact ⟨_, rfl⟩
      · cases hq
    · simp only [Except.ok.injEq, Prod.mk.injEq] at hq
      obtain ⟨h1, -⟩ := hq
      subst h1
      right; left; exact ⟨_, rfl⟩
  · split at hq
    · split at hq
      · simp only [Except.ok.injEq, Prod.mk.injEq] at hq
        obtain ⟨h1, -⟩ := hq
        subst h1
        right; right; rfl
      · cases hq
    · simp only [Except.ok.injEq, Prod.mk.injEq] at hq
      obtain ⟨h1, -⟩ := hq
      subst h1
      left; rfl

/-- A successful `doObserve` call acts on the table the way its `_query`
call does. -/
theorem doObserve_ok_registeredPaths {st : ObserverState} {act key : String}
    {q : Option String} {mid r0 r1 : Nat} {st' : ObserverState} {ms : List CoapMessage}
    (h : doObserve st act key q mid r0 r1 = Except.ok (st', ms)) :
    st'.registeredPaths = st.registeredPaths ∨
    (∃ bs, st'.registeredPaths = dictInsert st.registeredPaths key bs) ∨
    st'.registeredPaths = dictRemove st.registeredPaths key := by
  unfold doObserve at h
  dsimp only at h
  rcases hqq : query st act key (if act = "reg" ∧ strTruthy q then q else none) mid r0 r1 with
    e | ⟨st2, m2⟩
  · rw [hqq] at h
    simp [Except.map] at h
  · rw [hqq] at h
    simp only [Except.map, Except.ok.injEq, Prod.mk.injEq] at h
    obtain ⟨h1, -⟩ := h
    subst h1
    exact query_ok_registeredPaths hqq

/-- A successful command POST leaves the table unchanged, stores a token, or
deletes an entry. -/
theorem postServerResource_ok_registeredPaths {st : ObserverState} {path : String}
    {q : Option String} {mid r0 r1 : Nat} {st' : ObserverState} {ms : List CoapMessage}
    (hp : postServerResource st path q mid r0 r1 = Except.ok (st', ms)) :
    st'.registeredPaths = st.registeredPaths ∨
    (∃ key bs, st'.registeredPaths = dictInsert st.registeredPaths key bs) ∨
    (∃ key, st'.registeredPaths = dictRemove st.registeredPaths key) := by
  unfold postServerResource at hp
  repeat' split at hp
  all_goals
    first
    | (simp only [Except.ok.injEq, Prod.mk.injEq] at hp
       obtain ⟨h1, -⟩ := hp
       subst h1
       exact Or.inl rfl)
    | (rcases doObserve_ok_registeredPaths hp with h | ⟨bs, h⟩ | h
       · exact Or.inl h
       · exact Or.inr (Or.inl ⟨_, bs, h⟩)
       · exact Or.inr (Or.inr ⟨_, h⟩))

/-- The subscription table of any reachable state has at most one entry per
key. -/
theorem runCommands_keysNodup (cs : List Command) :
    keysNodup (runCommands cs).registeredPaths := by
  suffices h : ∀ st : ObserverState, keysNodup st.registeredPaths →
      keysNodup (cs.foldl runCommand st).registeredPaths by
    exact h initState (by simp [initState, keysNodup])
  induction cs with
  | nil => intro st h; exact h
  | cons c rest ih =>
    intro st h
    refine ih (runCommand st c) ?_
    cases c with
    | post path q mid r0 r1 =>
      rcases hp : postServerResource st path q mid r0 r1 with e | ⟨st2, ms⟩
      · simp only [runCommand, hp]
        exact h
      · simp only [runCommand, hp]
        rcases postServerResource_ok_registeredPaths hp with he | ⟨key, bs, he⟩ | ⟨key, he⟩
        · simpa [he] using h
        · simp only [he]
          exact keysNodup_dictInsert key bs h
        · simp only [he]
          exact keysNodup_dictRemove key h
    | inbound m => exact h

/-- The URI path options never contain an Observe option, whatever the
resource key. -/
theorem pathOptions_filter_observe (k : String) :
    (pathOptions k).filter (fun o => decide (o.optionType = OptionType.Observe)) = [] := by
  unfold pathOptions
  split
  · rfl
  · split
    · rfl
    · split <;> rfl

/-- C1: for every resourceKey `k`, `register(k)` followed immediately by
`deregister(k)` leaves the subscription table without an entry for `k` and
produces exactly two outbound messages (one per call): one with Observe
option value 0 and one with Observe option value 1, both carrying the same
token. -/
theorem register_deregister_roundtrip (st : ObserverState) (k : String)
    (mid1 mid2 r0 r1 r2 r3 : Nat) (hnd : keysNodup st.registeredPaths) :
    ∃ st1 m1 st2 m2,
      register st k none mid1 r0 r1 = Except.ok (st1, m1) ∧
      deregister st1 k mid2 r2 r3 = Except.ok (st2, m2) ∧
      dictLookup st2.registeredPaths k = none ∧
      findOption m1 OptionType.Observe = [⟨.Observe, .intVal 0⟩] ∧
      findOption m2 OptionType.Observe = [⟨.Observe, .intVal 1⟩] ∧
      m1.token = some [r0, r1] ∧ m2.token = m1.token := by
  have hdereg :
      deregister ⟨dictInsert st.registeredPaths k [r0, r1], st.notificationAction⟩ k mid2 r2 r3 =
      Except.ok
        (⟨dictRemove (dictInsert st.registeredPaths k [r0, r1]) k, st.notificationAction⟩,
         { messageType := .NON, codeClass := CodeClass.Request, codeDetail := RequestCode.GET,
           messageId := mid2,
           options := pathOptions k ++ [(⟨.Observe, .intVal 1⟩ : CoapOption)],
           tokenLength := 2, token := some [r0, r1] }) := by
    simp [deregister, query, dictLookup_dictInsert]
  refine ⟨_, _, _, _, rfl, hdereg, ?_, ?_, ?_, rfl, rfl⟩
  · exact dictLookup_dictRemove k (keysNodup_dictInsert k [r0, r1] hnd)
  · simp [findOption, List.filter_append, pathOptions_filter_observe]
  · simp [findOption, List.filter_append, pathOptions_filter_observe]

/-- C1 witness: the round trip at the concrete key `stats` with token bytes
`[5, 166]`. -/
theorem register_deregister_roundtrip_witness :
    ∃ st1 m1 st2 m2,
      register initState "stats" none 1 5 166 = Except.ok (st1, m1) ∧
      deregister st1 "stats" 2 0 0 = Except.ok (st2, m2) ∧
      dictLookup st2.registeredPaths "stats" = none ∧
      findOption m1 OptionType.Observe = [⟨.Observe, .intVal 0⟩] ∧
      findOption m2 OptionType.Observe = [⟨.Observe, .intVal 1⟩] ∧
      m1.token = some [5, 166] ∧ m2.token = m1.token :=
  register_deregister_roundtrip initState "stats" 1 2 5 166 0 0
    (by simp [initState, keysNodup])

/-- C2: the subscription table of every reachable state holds at most one
token per resourceKey, and registering an already-subscribed key replaces
its token: after `register(k)` twice, the table holds exactly one entry for
`k`, whose token is the one from the second call. -/
theorem table_single_token_and_reregister_replaces :
    (∀ cs : List Command, keysNodup (runCommands cs).registeredPaths) ∧
    (∀ (st : ObserverState) (k : String) (mid1 mid2 r0 r1 s0 s1 : Nat),
      keysNodup st.registeredPaths →
      ∃ st1 m1 st2 m2,
        register st k none mid1 r0 r1 = Except.ok (st1, m1) ∧
        register st1 k none mid2 s0 s1 = Except.ok (st2, m2) ∧
        st2.registeredPaths.filter (fun p => decide (p.1 = k)) = [(k, [s0, s1])] ∧
        dictLookup st2.registeredPaths k = some [s0, s1]) := by
  constructor
  · exact runCommands_keysNodup
  · intro st k mid1 mid2 r0 r1 s0 s1 hnd
    refine ⟨_, _, _, _, rfl, rfl, ?_, ?_⟩
    · exact filter_key_dictInsert k [s0, s1] (keysNodup_dictInsert k [r0, r1] hnd)
    · exact dictLookup_dictInsert _ _ _

/-- C2 witness: re-registering `stats` leaves a single entry carrying the
second token `[12, 13]`. -/
theorem table_single_token_and_reregister_replaces_witness :
    ∃ st1 m1 st2 m2,
      register initState "stats" none 1 10 11 = Except.ok (st1, m1) ∧
      register st1 "stats" none 2 12 13 = Except.ok (st2, m2) ∧
      st2.registeredPaths.filter (fun p => decide (p.1 = "stats")) = [("stats", [12, 13])] ∧
      dictLookup st2.registeredPaths "stats" = some [12, 13] :=
  table_single_token_and_reregister_replaces.2 initState "stats" 1 2 10 11 12 13
    (by simp [initState, keysNodup])

/-- C3: for an inbound confirmable (CON) message whose token matches a live
subscription: policy `reset` produces exactly one RST with the inbound
message ID and an empty token; the default/unset policy (the spec's `ack`)
produces exactly one ACK with the same message ID; policy `ignore` produces
nothing. -/
theorem con_notification_policy (st : ObserverState) (m : CoapMessage)
    (hmatch : tokenMatches st m = true) (hcon : m.messageType = MessageType.CON) :
    (st.notificationAction = .reset →
      responseClient st m =
        [{ messageType := .RST, codeClass := CodeClass.Empty,
           codeDetail := ClientResponseCode.Empty, messageId := m.messageId,
           options := [], tokenLength := 0, token := none }]) ∧
    (st.notificationAction = .unset →
      responseClient st m =
        [{ messageType := .ACK, codeClass := CodeClass.Empty,
           codeDetail := ClientResponseCode.Empty, messageId := m.messageId,
           options := [], tokenLength := 0, token := none }]) ∧
    (st.notificationAction = .ignore → responseClient st m = []) := by
  refine ⟨fun hp => ?_, fun hp => ?_, fun hp => ?_⟩ <;>
    simp [responseClient, hmatch, hcon, hp, sendNotifResponse]

/-- C3 witness: a matching CON notification under policy `reset` gets one
RST echoing message ID 77. -/
theorem con_notification_policy_witness :
    responseClient
        { registeredPaths := [("stats", [5, 166])], notificationAction := .reset }
        { messageType := .CON, codeClass := 2, codeDetail := 5, messageId := 77,
          options := [], tokenLength := 2, token := some [5, 166] } =
      [{ messageType := .RST, codeClass := CodeClass.Empty,
         codeDetail := ClientResponseCode.Empty, messageId := 77,
         options := [], tokenLength := 0, token := none }] :=
  (con_notification_policy
    { registeredPaths := [("stats", [5, 166])], notificationAction := .reset }
    { messageType := .CON, codeClass := 2, codeDetail := 5, messageId := 77,
      options := [], tokenLength := 2, token := some [5, 166] } rfl rfl).1 rfl

/-- C4: for an inbound non-confirmable (NON) message whose token matches a
live subscription: policy `reset_non` produces exactly one RST with the
inbound message ID; every other policy produces nothing. -/
theorem non_notification_policy (st : ObserverState) (m : CoapMessage)
    (hmatch : tokenMatches st m = true) (hnon : m.messageType = MessageType.NON) :
    (st.notificationAction = .reset_non →
      responseClient st m =
        [{ messageType := .RST, codeClass := CodeClass.Empty,
           codeDetail := ClientResponseCode.Empty, messageId := m.messageId,
           options := [], tokenLength := 0, token := none }]) ∧
    (st.notificationAction ≠ .reset_non → responseClient st m = []) := by
  refine ⟨fun hp => ?_, fun hp => ?_⟩ <;>
    simp [responseClient, hmatch, hnon, hp, sendNotifResponse]

/-- C4 witness: a matching NON notification under policy `reset_non` gets
one RST echoing message ID 42. -/
theorem non_notification_policy_witness :
    responseClient
        { registeredPaths := [("core", [1, 2])], notificationAction := .reset_non }
        { messageType := .NON, codeClass := 2, codeDetail := 5, messageId := 42,
          options := [], tokenLength := 2, token := some [1, 2] } =
      [{ messageType := .RST, codeClass := CodeClass.Empty,
         codeDetail := ClientResponseCode.Empty, messageId := 42,
         options := [], tokenLength := 0, token := none }] :=
  (non_notification_policy
    { registeredPaths := [("core", [1, 2])], notificationAction := .reset_non }
    { messageType := .NON, codeClass := 2, codeDetail := 5, messageId := 42,
      options := [], tokenLength := 2, token := some [1, 2] } rfl rfl).1 rfl

/-- C5: an inbound message whose token matches no value stored in the
subscription table never triggers a policy response, for every policy and
every message type. -/
theorem unmatched_token_no_response (st : ObserverState) (m : CoapMessage)
    (hnomatch : tokenMatches st m = false) :
    responseClient st m = [] := by
  simp [responseClient, hnomatch]

/-- C5 witness: a CON message whose token is not in the table draws no
response even under policy `reset`. -/
theorem unmatched_token_no_response_witness :
    responseClient
        { registeredPaths := [("stats", [5, 166])], notificationAction := .reset }
        { messageType := .CON, codeClass := 2, codeDetail := 5, messageId := 8,
          options := [], tokenLength := 1, token := some [7] } = [] :=
  unmatched_token_no_response _ _ rfl

/-- C10: under policy `reset_non`, a matching confirmable notification gets
no response at all, although the same message under the default unset
policy would get an ACK. -/
theorem reset_non_con_silent (st : ObserverState) (m : CoapMessage)
    (hmatch : tokenMatches st m = true) (hcon : m.messageType = MessageType.CON)
    (hpol : st.notificationAction = .reset_non) :
    responseClient st m = [] ∧
    responseClient { st with notificationAction := .unset } m =
      [{ messageType := .ACK, codeClass := CodeClass.Empty,
         codeDetail := ClientResponseCode.Empty, messageId := m.messageId,
         options := [], tokenLength := 0, token := none }] := by
  constructor
  · simp [responseClient, hmatch, hcon, hpol]
  · have hm : tokenMatches { st with notificationAction := .unset } m = true := hmatch
    simp [responseClient, hm, hcon, sendNotifResponse]

/-- C10 witness: the silent CON case at a concrete state and message. -/
theorem reset_non_con_silent_witness :
    responseClient
        { registeredPaths := [("stats", [5, 166])], notificationAction := .reset_non }
        { messageType := .CON, codeClass := 2, codeDetail := 5, messageId := 3,
          options := [], tokenLength := 2, token := some [5, 166] } = [] :=
  (reset_non_con_silent
    { registeredPaths := [("stats", [5, 166])], notificationAction := .reset_non }
    { messageType := .CON, codeClass := 2, codeDetail := 5, messageId := 3,
      options := [], tokenLength := 2, token := some [5, 166] } rfl rfl rfl).1

/-- C6: deregistering a currently-subscribed key builds a GET to the same
mapped path with Observe value 1 and the stored token; in particular an
explicit token text `05a6` is stored as the two bytes `[5, 166]` and the
subsequent deregister message carries exactly those bytes. -/
theorem deregister_uses_stored_token :
    (∀ (st : ObserverState) (k : String) (tok : List Nat) (mid r0 r1 : Nat),
      dictLookup st.registeredPaths k = some tok →
      ∃ st' m, deregister st k mid r0 r1 = Except.ok (st', m) ∧
        m.messageType = .NON ∧ m.codeClass = CodeClass.Request ∧
        m.codeDetail = RequestCode.GET ∧
        m.options = pathOptions k ++ [⟨.Observe, .intVal 1⟩] ∧
        m.token = some tok) ∧
    (∀ (st : ObserverState) (k : String) (mid1 mid2 r0 r1 : Nat),
      ∃ st1 m1 st2 m2,
        register st k (some "05a6") mid1 r0 r1 = Except.ok (st1, m1) ∧
        m1.token = some [5, 166] ∧
        dictLookup st1.registeredPaths k = some [5, 166] ∧
        deregister st1 k mid2 r0 r1 = Except.ok (st2, m2) ∧
        m2.token = some [5, 166]) := by
  constructor
  · intro st k tok mid r0 r1 hlook
    have h : deregister st k mid r0 r1 = Except.ok
        (⟨dictRemove st.registeredPaths k, st.notificationAction⟩,
         { messageType := .NON, codeClass := CodeClass.Request,
           codeDetail := RequestCode.GET, messageId := mid,
           options := pathOptions k ++ [(⟨.Observe, .intVal 1⟩ : CoapOption)],
           tokenLength := 2, token := some tok }) := by
      simp [deregister, query, hlook]
    exact ⟨_, _, h, rfl, rfl, rfl, rfl, rfl⟩
  · intro st k mid1 mid2 r0 r1
    have hdereg :
        deregister ⟨dictInsert st.registeredPaths k [5, 166], st.notificationAction⟩ k mid2 r0 r1 =
        Except.ok
          (⟨dictRemove (dictInsert st.registeredPaths k [5, 166]) k, st.notificationAction⟩,
           { messageType := .NON, codeClass := CodeClass.Request,
             codeDetail := RequestCode.GET, messageId := mid2,
             options := pathOptions k ++ [(⟨.Observe, .intVal 1⟩ : CoapOption)],
             tokenLength := 2, token := some [5, 166] }) := by
      simp [deregister, query, dictLookup_dictInsert]
    exact ⟨_, _, _, _, rfl, rfl, dictLookup_dictInsert _ _ _, hdereg, rfl⟩

/-- C6 witness: deregistering `stats` with stored token `[5, 166]`. -/
theorem deregister_uses_stored_token_witness :
    ∃ st' m,
      deregister { registeredPaths := [("stats", [5, 166])], notificationAction := .unset }
          "stats" 9 0 0 = Except.ok (st', m) ∧
      m.messageType = .NON ∧ m.codeClass = CodeClass.Request ∧
      m.codeDetail = RequestCode.GET ∧
      m.options = pathOptions "stats" ++ [⟨.Observe, .intVal 1⟩] ∧
      m.token = some [5, 166] :=
  deregister_uses_stored_token.1 _ "stats" [5, 166] 9 0 0 rfl

/-- C8: deregistering a resourceKey with no entry in the subscription table
fails with the `LookupError`-class `KeyError`, and the error propagates
through the command dispatch. -/
theorem deregister_unknown_key_error :
    (∀ (st : ObserverState) (k : String) (mid r0 r1 : Nat),
      dictLookup st.registeredPaths k = none →
      deregister st k mid r0 r1 = Except.error PyError.keyError) ∧
    (∀ (st : ObserverState) (q : Option String) (mid r0 r1 : Nat),
      dictLookup st.registeredPaths "stats" = none →
      postServerResource st "/dereg/stats" q mid r0 r1 = Except.error PyError.keyError) := by
  constructor
  · intro st k mid r0 r1 hlook
    simp [deregister, query, hlook]
  · intro st q mid r0 r1 hlook
    simp [postServerResource, doObserve, query, hlook, Except.map]

/-- C8 witness: deregistering `stats` in the initial (empty) table fails
with `KeyError`, both directly and through the command POST. -/
theorem deregister_unknown_key_error_witness :
    deregister initState "stats" 0 0 0 = Except.error PyError.keyError ∧
    postServerResource initState "/dereg/stats" none 0 0 0 = Except.error PyError.keyError :=
  ⟨deregister_unknown_key_error.1 initState "stats" 0 0 0 rfl,
   deregister_unknown_key_error.2 initState none 0 0 0 rfl⟩

/-- C7 counterexample: the command listener does not invoke `register` for
an arbitrary resourceKey.  Posting `/reg/foo` is a no-op — the table is
unchanged and nothing is sent — whereas `register("foo", ...)` from the
same state stores a token for `foo`. -/
theorem command_dispatch_counterexample :
    postServerResource initState "/reg/foo" (some "05a6") 1 2 3 =
      Except.ok (initState, []) ∧
    (register initState "foo" (some "05a6") 1 2 3).map
        (fun p => p.1.registeredPaths) = Except.ok [("foo", [5, 166])] :=
  ⟨rfl, rfl⟩

/-- C7 amended: the command listener maps POST paths to actions as
tabulated, but only for the three resourceKeys `stats`, `core`, `stats2`
hard-wired in the dispatch chain; `/reg/<k>` invokes
`register(k, explicitToken=queryString if present)` for exactly those keys,
`/dereg/<k>` invokes `deregister(k)` for exactly those keys, the three
`/notif/...` paths set the policy, and every other path — including
`/reg/...` or `/dereg/...` with any other key — is a no-op that changes
neither the subscription table nor the policy and sends nothing. -/
theorem command_dispatch_mapping :
    (∀ (st : ObserverState) (q : Option String) (mid r0 r1 : Nat),
      postServerResource st "/reg/stats" q mid r0 r1 =
        (register st "stats" (if strTruthy q then q else none) mid r0 r1).map
          (fun p => (p.1, [p.2]))) ∧
    (∀ (st : ObserverState) (q : Option String) (mid r0 r1 : Nat),
      postServerResource st "/reg/core" q mid r0 r1 =
        (register st "core" (if strTruthy q then q else none) mid r0 r1).map
          (fun p => (p.1, [p.2]))) ∧
    (∀ (st : ObserverState) (q : Option String) (mid r0 r1 : Nat),
      postServerResource st "/reg/stats2" q mid r0 r1 =
        (register st "stats2" (if strTruthy q then q else none) mid r0 r1).map
          (fun p => (p.1, [p.2]))) ∧
    (∀ (st : ObserverState) (q : Option String) (mid r0 r1 : Nat),
      postServerResource st "/dereg/stats" q mid r0 r1 =
        (deregister st "stats" mid r0 r1).map (fun p => (p.1, [p.2]))) ∧
    (∀ (st : ObserverState) (q : Option String) (mid r0 r1 : Nat),
      postServerResource st "/dereg/core" q mid r0 r1 =
        (deregister st "core" mid r0 r1).map (fun p => (p.1, [p.2]))) ∧
    (∀ (st : ObserverState) (q : Option String) (mid r0 r1 : Nat),
      postServerResource st "/dereg/stats2" q mid r0 r1 =
        (deregister st "stats2" mid r0 r1).map (fun p => (p.1, [p.2]))) ∧
    (∀ (st : ObserverState) (q : Option String) (mid r0 r1 : Nat),
      postServerResource st "/notif/con_ignore" q mid r0 r1 =
        Except.ok ({ st with notificationAction := .ignore }, [])) ∧
    (∀ (st : ObserverState) (q : Option String) (mid r0 r1 : Nat),
      postServerResource st "/notif/con_reset" q mid r0 r1 =
        Except.ok ({ st with notificationAction := .reset }, [])) ∧
    (∀ (st : ObserverState) (q : Option String) (mid r0 r1 : Nat),
      postServerResource st "/notif/non_reset" q mid r0 r1 =
        Except.ok ({ st with notificationAction := .reset_non }, [])) ∧
    (∀ (st : ObserverState) (path : String) (q : Option String) (mid r0 r1 : Nat),
      path ∉ (["/reg/stats", "/reg/core", "/reg/stats2",
               "/dereg/stats", "/dereg/core", "/dereg/stats2",
               "/notif/con_ignore", "/notif/con_reset", "/notif/non_reset"] : List String) →
      postServerResource st path q mid r0 r1 = Except.ok (st, [])) := by
  refine ⟨?a, ?b, ?c, ?d, ?e, ?f, ?g, ?h, ?i, ?j⟩
  case j =>
    intro st path q mid r0 r1 h
    simp only [List.mem_cons, List.not_mem_nil, or_false, not_or] at h
    obtain ⟨h1, h2, h3, h4, h5, h6, h7, h8, h9⟩ := h
    simp [postServerResource, h1, h2, h3, h4, h5, h6, h7, h8, h9]
  all_goals
    intro st q mid r0 r1
    simp [postServerResource, doObserve, register, deregister]

/-- C7 witness: the unrecognized path `/ping` is a no-op. -/
theorem command_dispatch_mapping_witness :
    postServerResource initState "/ping" none 0 0 0 = Except.ok (initState, []) :=
  command_dispatch_mapping.2.2.2.2.2.2.2.2.2 initState "/ping" none 0 0 0 (by decide)

/-- A hex digit's value is at most 15. -/
theorem hexVal_le {c : Char} {a : Nat} (h : hexVal c = some a) : a ≤ 15 := by
  have h0 : ('0' : Char).toNat = 48 := rfl
  have ha : ('a' : Char).toNat = 97 := rfl
  have hA : ('A' : Char).toNat = 65 := rfl
  unfold hexVal at h
  split at h
  · rename_i hc
    have h9 : c.toNat ≤ 57 := hc.2
    simp only [Option.some.injEq] at h
    omega
  · split at h
    · rename_i hc
      have hf : c.toNat ≤ 102 := hc.2
      simp only [Option.some.injEq] at h
      omega
    · split at h
      · rename_i hc
        have hF : c.toNat ≤ 70 := hc.2
        simp only [Option.some.injEq] at h
        omega
      · cases h

/-- Decoding a pair of hex digits always succeeds with the byte value. -/
theorem decodePair_hex {c1 c2 : Char} {a b : Nat}
    (h1 : hexVal c1 = some a) (h2 : hexVal c2 = some b) :
    decodePair c1 c2 = some (16 * a + b) := by
  have ha := hexVal_le h1
  have hb := hexVal_le h2
  simp only [decodePair, pyInt16Pair, h1, h2]
  rw [if_pos]
  · simp only [Option.some.injEq]
    omega
  · refine ⟨Int.natCast_nonneg _, ?_⟩
    exact_mod_cast (by omega : 16 * a + b < 256)

/-- The decode loop yields `floor(len/2)` bytes whenever it succeeds. -/
theorem decodePairs_length : ∀ (cs : List Char) (bs : List Nat),
    decodePairs cs = some bs → bs.length = cs.length / 2
  | [], bs, h => by
    simp only [decodePairs, Option.some.injEq] at h
    simp [← h]
  | [c], bs, h => by
    simp only [decodePairs, Option.some.injEq] at h
    simp [← h]
  | c1 :: c2 :: rest, bs, h => by
    simp only [decodePairs] at h
    rcases hp : decodePair c1 c2 with _ | b <;> rw [hp] at h
    · cases h
    · rcases hr : decodePairs rest with _ | bs' <;> rw [hr] at h
      · cases h
      · simp only [Option.some.injEq] at h
        have ih := decodePairs_length rest bs' hr
        subst h
        simp only [List.length_cons, ih]
        omega

/-- The decode loop succeeds on any all-hex text, of even or odd length. -/
theorem decodePairs_isSome : ∀ cs : List Char,
    (∀ c ∈ cs, (hexVal c).isSome) → (decodePairs cs).isSome
  | [], _ => by simp [decodePairs]
  | [c], _ => by simp [decodePairs]
  | c1 :: c2 :: rest, h => by
    have h1 := h c1 (by simp)
    have h2 := h c2 (by simp)
    have hrest := decodePairs_isSome rest (fun c hc => h c (by simp [hc]))
    rcases Option.isSome_iff_exists.mp h1 with ⟨a, ha⟩
    rcases Option.isSome_iff_exists.mp h2 with ⟨b, hb⟩
    rcases Option.isSome_iff_exists.mp hrest with ⟨bs, hbs⟩
    simp [decodePairs, decodePair_hex ha hb, hbs]

/-- C9 counterexample: a malformed explicit token text of odd length does
not fail.  With Python 2 floor division `register` for `05a` silently
decodes one byte, stores it, and succeeds. -/
theorem token_text_odd_length_counterexample :
    (register initState "stats" (some "05a") 7 1 2).map
        (fun p => (p.1.registeredPaths, p.2.token, p.2.tokenLength)) =
      Except.ok ([("stats", [5])], some [5], 1) :=
  rfl

/-- C9 amended: an explicit token text containing a two-character pair that
fails base-16 integer parsing (or parses negative) fails with the
`ValueError` format error at decode time; an odd-length text does not fail —
its final unpaired character is ignored; a text of `2*n+r` hex digit
characters (`r < 2`) decodes to `n` bytes, so an even-length hex string of
length `2*n` stores a token of `n` bytes. -/
theorem token_text_decode :
    (∀ (s : String) (st : ObserverState) (k : String) (mid r0 r1 : Nat),
      s ≠ "" → decodePairs s.data = none →
      register st k (some s) mid r0 r1 = Except.error PyError.valueError) ∧
    (∀ (cs : List Char) (bs : List Nat),
      decodePairs cs = some bs → bs.length = cs.length / 2) ∧
    (∀ cs : List Char, (∀ c ∈ cs, (hexVal c).isSome) → (decodePairs cs).isSome) ∧
    (∀ (s : String) (bs : List Nat) (st : ObserverState) (k : String) (mid r0 r1 : Nat),
      s ≠ "" → decodePairs s.data = some bs →
      ∃ st' m, register st k (some s) mid r0 r1 = Except.ok (st', m) ∧
        m.token = some bs ∧ m.tokenLength = s.length / 2 ∧
        dictLookup st'.registeredPaths k = some bs) := by
  refine ⟨?_, decodePairs_length, decodePairs_isSome, ?_⟩
  · intro s st k mid r0 r1 hs hdec
    have hne : s.isEmpty = false := by
      cases hemp : s.isEmpty
      · rfl
      · exact absurd ((String.isEmpty_iff s).mp hemp) hs
    simp [register, query, strTruthy, hne, hdec]
  · intro s bs st k mid r0 r1 hs hdec
    have hne : s.isEmpty = false := by
      cases hemp : s.isEmpty
      · rfl
      · exact absurd ((String.isEmpty_iff s).mp hemp) hs
    have hreg : register st k (some s) mid r0 r1 = Except.ok
        (⟨dictInsert st.registeredPaths k bs, st.notificationAction⟩,
         { messageType := .NON, codeClass := CodeClass.Request,
           codeDetail := RequestCode.GET, messageId := mid,
           options := pathOptions k ++ [(⟨.Observe, .intVal 0⟩ : CoapOption)],
           tokenLength := s.length / 2, token := some bs }) := by
      simp [register, query, strTruthy, hne, hdec]
    exact ⟨_, _, hreg, rfl, rfl, dictLookup_dictInsert _ _ _⟩

/-- C9 witness: `zz` is rejected with `ValueError`, while the four-digit
hex text `05a6` stores the two bytes `[5, 166]`. -/
theorem token_text_decode_witness :
    register initState "stats" (some "zz") 0 0 0 = Except.error PyError.valueError ∧
    (∃ st' m, register initState "stats" (some "05a6") 0 0 0 = Except.ok (st', m) ∧
      m.token = some [5, 166] ∧ m.tokenLength = "05a6".length / 2 ∧
      dictLookup st'.registeredPaths "stats" = some [5, 166]) :=
  ⟨token_text_decode.1 "zz" initState "stats" 0 0 0 (by decide) rfl,
   token_text_decode.2.2.2 "05a6" [5, 166] initState "stats" 0 0 0 (by decide) rfl⟩

end GcoapObserver
